import Mathlib

/-!
Shallow embedding of the V-REP quadcopter plugin (`Quadcopter.cpp`) and proofs
about its custom-data codec, breadth-first role search, PID flight controller
and actuator helpers.

Modelling conventions:
* Machine integers are `Nat`/`Int`; `uint8_t` buffer cells are read modulo 256.
* Single-precision floats are idealised as exact rationals (`ℚ`): the claims
  under study are about the algebraic form of the computations, not rounding.
* Host (V-REP) API calls that can fail (return -1 / NULL) are modelled as
  `Option`-valued environment functions; a C++ exception becomes `Except`.
* The two C++ while-loops (codec parse, BFS) are written with an explicit
  fuel argument so that every definition is structurally recursive and
  kernel-evaluable; fuel-sufficiency lemmas show the fuel chosen by the
  wrappers is never exhausted, so the fuel is invisible to the semantics.
-/

/-- A raw custom-data buffer: the byte sequence held in a
`std::vector<uint8_t>` (`byte_vector` in the source). -/
abbrev ByteVec := List Nat

/-- Reading byte `i` of a buffer.  Cells are `uint8_t`, hence the mod 256.
An index past the end yields the placeholder 0; whether the C++ code ever
dereferences past the end is tracked separately by the parser below. -/
def readByte (buf : ByteVec) (i : Nat) : Nat := buf.getD i 0 % 256

/-- The codec failure: `throw std::runtime_error("custom data format error")`
in `parseUint32`. -/
inductive FormatErr where
  | formatError
deriving DecidableEq, Repr

/-- `parseUint32` (Quadcopter.cpp:54-67): read a little-endian `uint32_t` at
position `p`; `end - p < 4` becomes `buf.length < p + 4` (valid also for an
iterator already past the end, where `end - p` is negative).  On success it
returns the value together with the advanced position `p + 4`. -/
def parseUint32 (buf : ByteVec) (p : Nat) : Except FormatErr (Nat × Nat) :=
  if buf.length < p + 4 then
    .error .formatError
  else
    .ok ((readByte buf p) ||| ((readByte buf (p + 1)) <<< 8) |||
         ((readByte buf (p + 2)) <<< 16) ||| ((readByte buf (p + 3)) <<< 24),
         p + 4)

/-- Decoded custom data: field id ↦ payload.  `std::map` assignment
`result[id] = v` is modelled by consing, since `List.lookup` returns the
most recent binding, matching the overwrite semantics of the map. -/
abbrev CustomData := List (Nat × ByteVec)

/-- Outcome of `parseCustomData`: a decoded record, the thrown format error,
or fuel exhaustion (shown unreachable in `parseLoop_noFuelFree`). -/
inductive ParseResult where
  | ok (data : CustomData)
  | formatError
  | noFuel
deriving DecidableEq, Repr

/-- The `while (p != end)` loop of `parseCustomData` (Quadcopter.cpp:70-84).
State: current index `p`, accumulated fields `acc`, and a flag `oob`
recording whether some payload slice `byte_vector(p, p + len)` reached past
the end of the buffer (the C++ code takes the slice and advances `p += len`
without validating `len` against the remaining bytes).  The payload bytes
are read with `readByte`; for an over-long `len` the slice content past the
end is junk, but in that case the final result is a format error anyway
(`parseLoop_oob`), so the junk never becomes observable. -/
def parseLoop (buf : ByteVec) : Nat → Nat → CustomData → Bool → ParseResult × Bool
  | 0, _, _, oob => (.noFuel, oob)
  | fuel + 1, p, acc, oob =>
    if p = buf.length then
      (.ok acc, oob)
    else
      match parseUint32 buf p with
      | .error _ => (.formatError, oob)
      | .ok (id, p1) =>
        match parseUint32 buf p1 with
        | .error _ => (.formatError, oob)
        | .ok (len, p2) =>
          parseLoop buf fuel (p2 + len)
            ((id, (List.range len).map (fun i => readByte buf (p2 + i))) :: acc)
            (oob || decide (buf.length < p2 + len))

/-- `parseCustomData` (Quadcopter.cpp:70-84).  Each loop iteration consumes at
least 8 bytes, so `buf.length + 1` units of fuel are always enough. -/
def parseCustomData (buf : ByteVec) : ParseResult × Bool :=
  parseLoop buf (buf.length + 1) 0 [] false

/-- `hasCustomDataField` (Quadcopter.cpp:87-98): membership test for a field.
`simGetObjectCustomDataLength` is the buffer length (`size <= 0` ⇒ `false`);
the parse exception is NOT caught anywhere in the source, so a format error
propagates to the caller (`Except.error`).  The `noFuel` case is unreachable
(`parseLoop_noFuelFree`) and is mapped to the error as well. -/
def hasCustomDataField (buf : ByteVec) (field : Nat) : Except FormatErr Bool :=
  if buf.length ≤ 0 then
    .ok false
  else
    match (parseCustomData buf).1 with
    | .ok data => .ok (data.lookup field).isSome
    | .formatError => .error .formatError
    | .noFuel => .error .formatError

/-- Membership ignoring errors: the value `hasCustomDataField` returns when
the buffer decodes cleanly (used to phrase the BFS specification). -/
def hasFieldB (buf : ByteVec) (field : Nat) : Bool :=
  match hasCustomDataField buf field with
  | .ok b => b
  | .error _ => false

/-- A buffer on which `hasCustomDataField` cannot raise: either empty
(`size <= 0` path) or decoding succeeds. -/
def bufOk (buf : ByteVec) : Bool :=
  decide (buf.length = 0) ||
    (match (parseCustomData buf).1 with
     | ParseResult.ok _ => true
     | _ => false)

mutual
/-- A scene object as seen by the role search: its handle, its raw custom
data buffer, and its children in the host enumeration order
(`simGetObjectChild obj 0, 1, ...` until -1).  The object hierarchy is a
tree (an invariant of the host, assumed by the source). -/
inductive ObjTree where
  | node (id : Int) (buf : ByteVec) (children : ObjForest)
/-- The ordered list of children of a scene object. -/
inductive ObjForest where
  | nil
  | cons (t : ObjTree) (f : ObjForest)
end

/-- Object handle of the root of a subtree. -/
def ObjTree.id : ObjTree → Int
  | .node i _ _ => i

/-- Custom-data buffer of the root of a subtree. -/
def ObjTree.buf : ObjTree → ByteVec
  | .node _ b _ => b

/-- Children of the root of a subtree. -/
def ObjTree.children : ObjTree → ObjForest
  | .node _ _ c => c

/-- A forest as a list of trees (the order of `simGetObjectChild`). -/
def forestToList : ObjForest → List ObjTree
  | .nil => []
  | .cons t f => t :: forestToList f

mutual
/-- Number of objects in a subtree. -/
def ObjTree.size : ObjTree → Nat
  | .node _ _ c => 1 + ObjForest.size c
/-- Number of objects in a forest. -/
def ObjForest.size : ObjForest → Nat
  | .nil => 0
  | .cons t f => ObjTree.size t + ObjForest.size f
end

/-- Total number of objects in a queue of subtrees. -/
def sizes (q : List ObjTree) : Nat := (q.map ObjTree.size).sum

mutual
/-- Every buffer in the subtree decodes without a format error. -/
def treeOk : ObjTree → Bool
  | .node _ buf c => bufOk buf && forestOk c
/-- Every buffer in the forest decodes without a format error. -/
def forestOk : ObjForest → Bool
  | .nil => true
  | .cons t f => treeOk t && forestOk f
end

/-- Result of the role search.  The source returns an `int`: a matching
object handle, or -1 when the subtree is exhausted; an uncaught codec
exception is a third outcome.  `noFuel` is the fuel-exhaustion marker,
shown unreachable in `searchLoop_noFuelFree`. -/
inductive SearchResult where
  | found (id : Int)
  | notFound
  | fmtError
  | noFuel
deriving DecidableEq, Repr

/-- True only for the fuel-exhaustion marker. -/
def SearchResult.isFuelOut : SearchResult → Bool
  | .noFuel => true
  | _ => false

/-- The `while (!q.empty())` loop of `searchCustomDataField`
(Quadcopter.cpp:104-127): pop the front object, test it, push its children
(in host order) at the back.  The deque of object handles is modelled as a
list of subtrees: popping handle `obj` and later asking the host for its
children is the same as popping the subtree rooted at `obj`.  Each
iteration pops exactly one object, and every object enters the queue at
most once (once per parent edge, plus the root), so `sizes q + 1` fuel
suffices. -/
def searchLoop (field : Nat) : Nat → List ObjTree → SearchResult
  | 0, _ => .noFuel
  | _ + 1, [] => .notFound
  | fuel + 1, t :: rest =>
    match hasCustomDataField t.buf field with
    | .error _ => .fmtError
    | .ok true => .found t.id
    | .ok false => searchLoop field fuel (rest ++ forestToList t.children)

/-- `searchCustomDataField` (Quadcopter.cpp:104-127): breadth-first search of
the subtree rooted at `t` for an object carrying `field`. -/
def searchCustomDataField (t : ObjTree) (field : Nat) : SearchResult :=
  searchLoop field (ObjTree.size t + 1) [t]

/-- Breadth-first visitation order, written from the specification words:
visit the current level left to right, then recurse into the concatenation
of the children lists (left to right).  Fuel counts levels; the node count
bounds the depth, so `ObjTree.size t + 1` is always enough. -/
def levelOrderLoop : Nat → List ObjTree → List ObjTree
  | 0, _ => []
  | _ + 1, [] => []
  | fuel + 1, t :: rest =>
    (t :: rest) ++
      levelOrderLoop fuel ((t :: rest).flatMap (fun u => forestToList u.children))

/-- The breadth-first (level) order of the objects of a subtree, root first,
children in host order. -/
def levelOrder (t : ObjTree) : List ObjTree :=
  levelOrderLoop (ObjTree.size t + 1) [t]

/-- Queue-shaped visitation order: the objects in the order the search loop
pops them (proof device relating `searchLoop` to `levelOrder`). -/
def bfsLoop : Nat → List ObjTree → List ObjTree
  | 0, _ => []
  | _ + 1, [] => []
  | fuel + 1, t :: rest => t :: bfsLoop fuel (rest ++ forestToList t.children)

/-! ### Flight controller and actuator model -/

/-- The per-run controller memory: the `Quadcopter` member variables zeroed
by `simulationStarted` (Quadcopter.cpp:212-222) and mutated by
`pidControl`.  Floats are idealised as rationals. -/
structure CState where
  m_last_save_time : ℚ
  m_cumul : ℚ
  m_lastE : ℚ
  m_pAlphaE : ℚ
  m_pBetaE : ℚ
  m_psp0 : ℚ
  m_psp1 : ℚ
  m_prevEuler : ℚ
deriving DecidableEq, Repr

/-- The object handles a `Quadcopter` is bound to: `m_obj` is the plugin
object itself, `m_body` and `m_target` are found by the role search. -/
structure QuadIds where
  m_obj : Int
  m_body : Int
  m_target : Int
deriving DecidableEq, Repr

/-- The view of one tick of the host simulator.  Each field models a V-REP API
call used by `pidControl`; a call the host reports as failed (-1) is
`none`.  `position obj rel` is `simGetObjectPosition(obj, rel, ·)` (rel =
-1 means world frame); `velocity obj` is the linear part of
`simGetObjectVelocity(obj, ·, NULL)`; `objectMatrix obj rel` is the
12-entry row-major 3x4 matrix of `simGetObjectMatrix`; `transformVector m
v` is `simTransformVector(m, v)` (which overwrites `v` in the source);
`orientation obj rel` is the Euler-angle triple of
`simGetObjectOrientation`. -/
structure Env where
  position : Int → Int → Option (ℚ × ℚ × ℚ)
  velocity : Int → Option (ℚ × ℚ × ℚ)
  objectMatrix : Int → Int → Option (List ℚ)
  transformVector : List ℚ → ℚ × ℚ × ℚ → Option (ℚ × ℚ × ℚ)
  orientation : Int → Int → Option (ℚ × ℚ × ℚ)

/-- `pParam` (Quadcopter.cpp:286). -/
def pParam : ℚ := 1.0

/-- `iParam` (Quadcopter.cpp:287). -/
def iParam : ℚ := 0.0

/-- `dParam` (Quadcopter.cpp:288). -/
def dParam : ℚ := 0.0

/-- `vParam` (Quadcopter.cpp:289). -/
def vParam : ℚ := -2.0

/-- Result of one `pidControl` tick: the controller state after the tick,
and the four motor commands handed to `setMotorParticleVelocity`, or
`none` when a failed host read aborted the tick before the motor writes. -/
structure TickResult where
  state : CState
  motors : Option (ℚ × ℚ × ℚ × ℚ)
deriving DecidableEq, Repr

/-- `Quadcopter::pidControl` (Quadcopter.cpp:284-346).  Every host call is
wrapped in `CHECK`, which on failure prints a diagnostic and returns from
the function; the state fields written before the failing call keep their
new values.  Source order of writes: `m_cumul`/`m_lastE` after the three
vertical reads; `m_pAlphaE`/`m_pBetaE`, then `m_psp0`/`m_psp1`, after the
four horizontal reads; `m_prevEuler` after the orientation read.  Note the
velocity is read for `m_obj` (the plugin object), while positions use
`d = m_body`. -/
def pidControl (env : Env) (ids : QuadIds) (s : CState) : TickResult :=
  let d := ids.m_body
  match env.position ids.m_target (-1) with
  | none => { state := s, motors := none }
  | some targetPos =>
    match env.position d (-1) with
    | none => { state := s, motors := none }
    | some pos =>
      match env.velocity ids.m_obj with
      | none => { state := s, motors := none }
      | some vel =>
        let errorZ := targetPos.2.2 - pos.2.2
        let cumul := s.m_cumul + errorZ
        let pv := pParam * errorZ
        let thrust := 5.335 + pv + iParam * cumul +
          dParam * (errorZ - s.m_lastE) + vel.2.2 * vParam
        let s1 : CState := { s with m_cumul := cumul, m_lastE := errorZ }
        match env.position ids.m_target d with
        | none => { state := s1, motors := none }
        | some sp =>
          match env.objectMatrix d (-1) with
          | none => { state := s1, motors := none }
          | some m =>
            match env.transformVector m (1, 0, 0) with
            | none => { state := s1, motors := none }
            | some vx =>
              match env.transformVector m (0, 1, 0) with
              | none => { state := s1, motors := none }
              | some vy =>
                let m11 := m.getD 11 0
                let alphaE := vy.2.2 - m11
                let alphaCorr := 0.25 * alphaE + 2.1 * (alphaE - s1.m_pAlphaE)
                let betaE := vx.2.2 - m11
                let betaCorr := -0.25 * betaE - 2.1 * (betaE - s1.m_pBetaE)
                let s2 : CState := { s1 with m_pAlphaE := alphaE, m_pBetaE := betaE }
                let alphaCorr2 := alphaCorr + sp.2.1 * 0.005 + 1.0 * (sp.2.1 - s2.m_psp1)
                let betaCorr2 := betaCorr - sp.1 * 0.005 - 1.0 * (sp.1 - s2.m_psp0)
                let s3 : CState := { s2 with m_psp0 := sp.1, m_psp1 := sp.2.1 }
                match env.orientation d ids.m_target with
                | none => { state := s3, motors := none }
                | some euler =>
                  let rotCorr := euler.2.2 * 0.1 + 2.0 * (euler.2.2 - s3.m_prevEuler)
                  let s4 : CState := { s3 with m_prevEuler := euler.2.2 }
                  { state := s4,
                    motors := some
                      (thrust * (1.0 - alphaCorr2 + betaCorr2 + rotCorr),
                       thrust * (1.0 - alphaCorr2 - betaCorr2 - rotCorr),
                       thrust * (1.0 + alphaCorr2 - betaCorr2 + rotCorr),
                       thrust * (1.0 + alphaCorr2 + betaCorr2 - rotCorr)) }

/-- `Quadcopter::simulationStarted` (Quadcopter.cpp:212-222): reset every
controller-state field to zero, whatever the prior run left in it. -/
def simulationStarted (_prior : CState) : CState :=
  { m_last_save_time := 0, m_cumul := 0, m_lastE := 0, m_pAlphaE := 0,
    m_pBetaE := 0, m_psp0 := 0, m_psp1 := 0, m_prevEuler := 0 }

/-- A write through `simSetScriptSimulationParameter`: the addressed script
and the velocity value (stringified in the source). -/
structure ActuatorCall where
  script : Int
  value : ℚ
deriving DecidableEq, Repr

/-- `Quadcopter::setMotorParticleVelocity` (Quadcopter.cpp:228-240).
`scriptOf` models `simGetScriptAssociatedWithObject`, `motors` the
`m_motors` array.  Returns the actuator call made, or `none` when the
function returns without touching the actuator (out-of-range index, or no
associated script). -/
def setMotorParticleVelocity (scriptOf : Int → Int) (motors : List Int)
    (n : Int) (v : ℚ) : Option ActuatorCall :=
  if n < 0 ∨ 3 < n then none
  else
    let script := scriptOf (motors.getD n.toNat 0)
    if script = -1 then none
    else some { script := script, value := v }

/-- `Quadcopter::getMotorParticleVelocity` (Quadcopter.cpp:242-268).
`paramOf` models `simGetScriptSimulationParameter`; a NULL result is
`none`.  The `result` variable starts at 0.0 and is only overwritten by a
successful read, so every failure path returns 0. -/
def getMotorParticleVelocity (scriptOf : Int → Int) (paramOf : Int → Option ℚ)
    (motors : List Int) (n : Int) : ℚ :=
  if n < 0 ∨ 3 < n then 0
  else
    let script := scriptOf (motors.getD n.toNat 0)
    if script = -1 then 0
    else
      match paramOf script with
      | some v => v
      | none => 0

/-- The vertical thrust law of the specification (spec §4.4 step 1), transcribed
from the spec text: `thrust = baseThrust + Kp·error + Ki·integral +
Kd·(error − prevError) + Kv·verticalVelocity` with `Kp=1.0, Ki=0.0,
Kd=0.0, Kv=−2.0, baseThrust=5.335`; `integral` is the post-accumulation
value. -/
def specThrust (s : CState) (errZ velZ : ℚ) : ℚ :=
  5.335 + 1.0 * errZ + 0.0 * (s.m_cumul + errZ) + 0.0 * (errZ - s.m_lastE) +
    (-2.0) * velZ

/-- The alpha-axis correction law of the specification (spec §4.4 step 2). -/
def specAlphaCorr (s : CState) (alphaE spY : ℚ) : ℚ :=
  0.25 * alphaE + 2.1 * (alphaE - s.m_pAlphaE) + (spY * 0.005 + 1.0 * (spY - s.m_psp1))

/-- The beta-axis correction law of the specification (spec §4.4 step 2). -/
def specBetaCorr (s : CState) (betaE spX : ℚ) : ℚ :=
  -0.25 * betaE - 2.1 * (betaE - s.m_pBetaE) - (spX * 0.005 + 1.0 * (spX - s.m_psp0))

/-- The yaw correction law of the specification (spec §4.4 step 3). -/
def specRotCorr (s : CState) (eulerZ : ℚ) : ℚ :=
  0.1 * eulerZ + 2.0 * (eulerZ - s.m_prevEuler)

/-- The quad-X motor mixing of the specification (spec §4.4 step 4). -/
def specMotorMix (thrust a b r : ℚ) : ℚ × ℚ × ℚ × ℚ :=
  (thrust * (1 - a + b + r), thrust * (1 - a - b - r),
   thrust * (1 + a - b + r), thrust * (1 + a + b - r))

/-- Handles used by the concrete controller scenarios: plugin object 10,
body 20, target 30 (all distinct, as in a real scene). -/
def cexIds : QuadIds := { m_obj := 10, m_body := 20, m_target := 30 }

/-- The all-zero controller state (the state right after
`simulationStarted`). -/
def zeroCState : CState :=
  { m_last_save_time := 0, m_cumul := 0, m_lastE := 0, m_pAlphaE := 0,
    m_pBetaE := 0, m_psp0 := 0, m_psp1 := 0, m_prevEuler := 0 }

/-- An all-zero 3x4 object matrix. -/
def zeroMat : List ℚ := [0, 0, 0, 0, 0, 0, 0, 0, 0, 0, 0, 0]

/-- Scenario distinguishing the velocity source: target at z = 2 and body
(handle 20) at z = 1 in the world frame, the PLUGIN OBJECT (handle 10)
climbing with vertical velocity 1 while the BODY is at rest, and every
horizontal/rotational input zero. -/
def envC1 : Env :=
  { position := fun o r =>
      if o = 30 ∧ r = -1 then some (0, 0, 2)
      else if o = 20 ∧ r = -1 then some (0, 0, 1)
      else some (0, 0, 0),
    velocity := fun o => if o = 10 then some (0, 0, 1) else some (0, 0, 0),
    objectMatrix := fun _ _ => some zeroMat,
    transformVector := fun _ _ => some (0, 0, 0),
    orientation := fun _ _ => some (0, 0, 0) }

/-- The hover scenario of spec §8: target at z = 2, body at z = 1, all
velocities zero, all horizontal and rotational inputs zero. -/
def envHover : Env :=
  { position := fun o r =>
      if o = 30 ∧ r = -1 then some (0, 0, 2)
      else if o = 20 ∧ r = -1 then some (0, 0, 1)
      else some (0, 0, 0),
    velocity := fun _ => some (0, 0, 0),
    objectMatrix := fun _ _ => some zeroMat,
    transformVector := fun _ _ => some (0, 0, 0),
    orientation := fun _ _ => some (0, 0, 0) }

/-- A tick on which every host read fails. -/
def envDown : Env :=
  { position := fun _ _ => none, velocity := fun _ => none,
    objectMatrix := fun _ _ => none, transformVector := fun _ _ => none,
    orientation := fun _ _ => none }

/-- An arbitrary nonzero controller state (left over from a previous run). -/
def sPrior : CState :=
  { m_last_save_time := 8, m_cumul := 1, m_lastE := 2, m_pAlphaE := 3,
    m_pBetaE := 4, m_psp0 := 5, m_psp1 := 6, m_prevEuler := 7 }


/-! ### Theorems: codec -/

/-- Claim C2 counterexample: on the buffer declaring field id 1 with length 5
but only 2 payload bytes, the parser does report the format error, but the
out-of-bounds flag is set: the payload slice `byte_vector(p, p + len)` was
taken past the buffer end before the error was detected, contradicting the
claim that decode "never reads past the buffer end". -/
theorem parseCustomData_readsPastEnd :
    parseCustomData [1, 0, 0, 0, 5, 0, 0, 0, 1, 2] = (ParseResult.formatError, true) := by
  decide

/-- Fuel sufficiency for the parse loop: with `buf.length + 1 ≤ fuel + p`
(and at least one unit of fuel) the loop never runs out of fuel, because
every iteration either stops or consumes at least 8 bytes. -/
theorem parseLoop_noFuelFree (buf : ByteVec) :
    ∀ (fuel : Nat) (p : Nat) (acc : CustomData) (oob : Bool),
      buf.length + 1 ≤ fuel + p → 1 ≤ fuel →
      (parseLoop buf fuel p acc oob).1 ≠ ParseResult.noFuel := by
  intro fuel
  induction fuel with
  | zero => intro p acc oob h h1; omega
  | succ fuel ih =>
    intro p acc oob h h1
    by_cases hp : p = buf.length
    · simp [parseLoop, hp]
    · by_cases h4 : buf.length < p + 4
      · simp [parseLoop, hp, parseUint32, h4]
      · by_cases h8 : buf.length < p + 4 + 4
        · simp [parseLoop, hp, parseUint32, h4, h8]
        · simp only [parseLoop, hp, parseUint32, h4, h8, if_neg, if_false, ite_false]
          exact ih _ _ _ (by omega) (by omega)

/-- If the out-of-bounds flag comes out set, the parse ends in a format
error: an over-long declared length pushes `p` past the end, and the next
iteration then fails the `parseUint32` bound check. -/
theorem parseLoop_oob (buf : ByteVec) :
    ∀ (fuel : Nat) (p : Nat) (acc : CustomData) (oob : Bool),
      buf.length + 1 ≤ fuel + p → 1 ≤ fuel →
      (oob = true → buf.length < p) →
      (parseLoop buf fuel p acc oob).2 = true →
      (parseLoop buf fuel p acc oob).1 = ParseResult.formatError := by
  intro fuel
  induction fuel with
  | zero => intro p acc oob h h1; omega
  | succ fuel ih =>
    intro p acc oob h h1 hoob
    by_cases hp : p = buf.length
    · intro h2
      simp only [parseLoop, hp, if_pos] at h2 ⊢
      have := hoob h2
      omega
    · by_cases h4 : buf.length < p + 4
      · simp [parseLoop, hp, parseUint32, h4]
      · by_cases h8 : buf.length < p + 4 + 4
        · simp [parseLoop, hp, parseUint32, h4, h8]
        · simp only [parseLoop, hp, parseUint32, h4, h8, if_neg, if_false, ite_false]
          apply ih _ _ _ (by omega) (by omega)
          intro hor
          rcases Bool.or_eq_true_iff.mp hor with hl | hr
          · exact absurd (hoob hl) (by omega)
          · have := of_decide_eq_true hr
            omega

/-- Claim C2 (amended): `parseUint32` fails with the format error exactly
when fewer than 4 bytes remain, and a buffer too short for a declared
length field always ends in a format error — but, as the counterexample
`parseCustomData_readsPastEnd` shows, the payload slice is taken before the
length is validated, so the parser may read past the buffer end on the way
to that error (the second component of `parseCustomData` records such a
read). -/
theorem parseCustomData_truncation (buf : ByteVec) (p : Nat) :
    (parseUint32 buf p = .error FormatErr.formatError ↔ buf.length < p + 4) ∧
    ((parseCustomData buf).2 = true →
      (parseCustomData buf).1 = ParseResult.formatError) := by
  constructor
  · constructor
    · intro h
      by_contra hn
      simp [parseUint32, hn] at h
    · intro h
      simp [parseUint32, h]
  · exact parseLoop_oob buf (buf.length + 1) 0 [] false (by omega) (by omega)
      (by intro h; cases h)

/-- Claim C2 witness: the truncated buffer from the counterexample indeed
triggers the out-of-bounds read and the theorem then forces the format
error. -/
theorem parseCustomData_truncation_witness :
    (parseCustomData [1, 0, 0, 0, 5, 0, 0, 0, 1, 2]).2 = true ∧
    (parseCustomData [1, 0, 0, 0, 5, 0, 0, 0, 1, 2]).1 = ParseResult.formatError :=
  ⟨by decide, (parseCustomData_truncation [1, 0, 0, 0, 5, 0, 0, 0, 1, 2] 0).2 (by decide)⟩

/-- Claim C3 (code bug): on a malformed buffer (a single stray byte) the
format error ESCAPES `hasCustomDataField` — there is no try/catch anywhere
in the source — and therefore also escapes the role search, instead of
being treated as "no match" (`.ok false`) as the specification requires. -/
theorem hasCustomDataField_errorEscapes :
    hasCustomDataField [255] 0 = .error FormatErr.formatError ∧
    searchCustomDataField (ObjTree.node 5 [255] ObjForest.nil) 0 = SearchResult.fmtError := by
  constructor
  · rfl
  · rfl

/-! ### Theorems: breadth-first role search -/

/-- `sizes` of a cons. -/
theorem sizes_cons (t : ObjTree) (rest : List ObjTree) :
    sizes (t :: rest) = ObjTree.size t + sizes rest := by
  simp [sizes]

/-- `sizes` distributes over append. -/
theorem sizes_append (a b : List ObjTree) : sizes (a ++ b) = sizes a + sizes b := by
  simp [sizes]

/-- Every subtree holds at least its root. -/
theorem size_pos (t : ObjTree) : 1 ≤ ObjTree.size t := by
  cases t with
  | node i buf c => simp [ObjTree.size]

/-- A subtree is its root plus its children forest. -/
theorem size_eq_children (t : ObjTree) :
    ObjTree.size t = 1 + ObjForest.size t.children := by
  cases t with
  | node i b c => rfl

/-- A forest flattens to a list of the same total size. -/
theorem sizes_forestToList : ∀ (f : ObjForest), sizes (forestToList f) = ObjForest.size f
  | .nil => by simp [forestToList, sizes, ObjForest.size]
  | .cons t f => by
    have ih := sizes_forestToList f
    simp [forestToList, sizes_cons, ObjForest.size, ih]

/-- Stepping a whole queue down to its children loses exactly one object per
queue entry. -/
theorem sizes_flatMap_children (q : List ObjTree) :
    sizes (q.flatMap (fun u => forestToList u.children)) + q.length = sizes q := by
  induction q with
  | nil => simp [sizes]
  | cons t rest ih =>
    have hftl := sizes_forestToList t.children
    have hsz := size_eq_children t
    simp only [List.flatMap_cons, sizes_append, List.length_cons, sizes_cons]
    omega

/-- An empty queue yields an empty visitation, whatever the fuel. -/
theorem levelOrderLoop_nil : ∀ (fuel : Nat), levelOrderLoop fuel [] = [] := by
  intro fuel
  cases fuel <;> rfl

/-- An empty queue yields an empty visitation, whatever the fuel. -/
theorem bfsLoop_nil : ∀ (fuel : Nat), bfsLoop fuel [] = [] := by
  intro fuel
  cases fuel <;> rfl

/-- With sufficient fuel (one unit per level; the object count bounds the
number of levels) the level-order visitation does not depend on the fuel. -/
theorem levelOrderLoop_fuelIrrel :
    ∀ (n : Nat) (q : List ObjTree) (f1 f2 : Nat), sizes q ≤ n →
      sizes q + 1 ≤ f1 → sizes q + 1 ≤ f2 →
      levelOrderLoop f1 q = levelOrderLoop f2 q := by
  intro n
  induction n with
  | zero =>
    intro q f1 f2 hq h1 h2
    cases q with
    | nil => rw [levelOrderLoop_nil, levelOrderLoop_nil]
    | cons t rest =>
      have hpos := size_pos t
      rw [sizes_cons] at hq
      omega
  | succ n ih =>
    intro q f1 f2 hq h1 h2
    cases q with
    | nil => rw [levelOrderLoop_nil, levelOrderLoop_nil]
    | cons t rest =>
      have hpos := size_pos t
      obtain ⟨a, rfl⟩ : ∃ a, f1 = a + 1 := ⟨f1 - 1, by rw [sizes_cons] at h1; omega⟩
      obtain ⟨b, rfl⟩ : ∃ b, f2 = b + 1 := ⟨f2 - 1, by rw [sizes_cons] at h2; omega⟩
      simp only [levelOrderLoop]
      congr 1
      have hnext := sizes_flatMap_children (t :: rest)
      simp only [List.length_cons, sizes_cons] at hnext hq h1 h2
      exact ih _ _ _ (by omega) (by omega) (by omega)

/-- Splitting the level-order visitation of a concatenated queue: the first
block is visited now, and its children wait behind the second block. -/
theorem levelOrderLoop_split :
    ∀ (n : Nat) (a b : List ObjTree) (f1 f2 : Nat),
      sizes (a ++ b) ≤ n → sizes (a ++ b) + 1 ≤ f1 →
      sizes (b ++ a.flatMap (fun u => forestToList u.children)) + 1 ≤ f2 →
      levelOrderLoop f1 (a ++ b) =
        a ++ levelOrderLoop f2 (b ++ a.flatMap (fun u => forestToList u.children)) := by
  intro n
  induction n with
  | zero =>
    intro a b f1 f2 hab h1 h2
    cases a with
    | nil =>
      simp only [List.nil_append, List.flatMap_nil, List.append_nil] at h2 ⊢
      simp only [List.nil_append] at hab h1
      exact levelOrderLoop_fuelIrrel (sizes b) b f1 f2 le_rfl h1 h2
    | cons t a2 =>
      have hpos := size_pos t
      rw [List.cons_append, sizes_cons] at hab
      omega
  | succ n ih =>
    intro a b f1 f2 hab h1 h2
    cases a with
    | nil =>
      simp only [List.nil_append, List.flatMap_nil, List.append_nil] at h2 ⊢
      simp only [List.nil_append] at hab h1
      exact levelOrderLoop_fuelIrrel (sizes b) b f1 f2 le_rfl h1 h2
    | cons t a2 =>
      have hA := sizes_flatMap_children a2
      have hB := sizes_flatMap_children b
      have hC := sizes_forestToList t.children
      have hD := size_eq_children t
      have hpos := size_pos t
      simp only [List.cons_append, sizes_cons, sizes_append] at hab h1
      simp only [List.flatMap_cons, sizes_append, sizes_cons] at h2
      obtain ⟨c, rfl⟩ : ∃ c, f1 = c + 1 := ⟨f1 - 1, by omega⟩
      rw [List.cons_append]
      simp only [levelOrderLoop]
      rw [ih b ((t :: a2).flatMap (fun u => forestToList u.children)) f2
        (sizes ((t :: a2).flatMap (fun u => forestToList u.children) ++
          b.flatMap (fun u => forestToList u.children)) + 1)
        (by simp only [List.flatMap_cons, sizes_append]; omega)
        (by simp only [List.flatMap_cons, sizes_append]; omega)
        le_rfl]
      simp only [List.flatMap_cons, List.flatMap_append, List.cons_append,
        List.append_assoc]
      refine congrArg (fun l => t :: (a2 ++ (b ++ l))) ?_
      exact levelOrderLoop_fuelIrrel _ _ _ _ le_rfl
        (by simp only [sizes_append]; omega) le_rfl

/-- The queue-shaped visitation of the search loop is exactly the
level-by-level visitation, given sufficient fuel on both sides. -/
theorem bfsLoop_eq_levelOrder :
    ∀ (n : Nat) (q : List ObjTree) (f1 f2 : Nat), sizes q ≤ n →
      sizes q + 1 ≤ f1 → sizes q + 1 ≤ f2 →
      bfsLoop f1 q = levelOrderLoop f2 q := by
  intro n
  induction n with
  | zero =>
    intro q f1 f2 hq h1 h2
    cases q with
    | nil => rw [bfsLoop_nil, levelOrderLoop_nil]
    | cons t rest =>
      have hpos := size_pos t
      rw [sizes_cons] at hq
      omega
  | succ n ih =>
    intro q f1 f2 hq h1 h2
    cases q with
    | nil => rw [bfsLoop_nil, levelOrderLoop_nil]
    | cons t rest =>
      have hpos := size_pos t
      have hA := sizes_flatMap_children rest
      have hftl := sizes_forestToList t.children
      have hD := size_eq_children t
      rw [sizes_cons] at hq h1 h2
      obtain ⟨c, rfl⟩ : ∃ c, f1 = c + 1 := ⟨f1 - 1, by omega⟩
      simp only [bfsLoop]
      rw [ih (rest ++ forestToList t.children) c
        (sizes (rest ++ forestToList t.children) + 1)
        (by simp only [sizes_append]; omega)
        (by simp only [sizes_append]; omega) le_rfl]
      have hsplit := levelOrderLoop_split (sizes ([t] ++ rest)) [t] rest f2
        (sizes (rest ++ [t].flatMap (fun u => forestToList u.children)) + 1)
        le_rfl
        (by simp only [List.singleton_append, sizes_cons]; omega)
        le_rfl
      simp only [List.singleton_append, List.flatMap_cons, List.flatMap_nil,
        List.append_nil] at hsplit
      rw [hsplit]

/-- A subtree as the source search sees it: buffer-sanity splits into the
root buffer and the children forest. -/
theorem treeOk_eq (t : ObjTree) : treeOk t = (bufOk t.buf && forestOk t.children) := by
  cases t with
  | node i b c => rfl

/-- Flattening a forest preserves buffer-sanity of all members. -/
theorem forestOk_toList : ∀ (f : ObjForest), (forestToList f).all treeOk = forestOk f
  | .nil => by simp [forestToList, forestOk]
  | .cons t f => by
    have ih := forestOk_toList f
    simp [forestToList, forestOk, ih]

/-- On a sane buffer, the membership test returns cleanly with the value
`hasFieldB`. -/
theorem hasCustomDataField_of_bufOk (buf : ByteVec) (field : Nat) (h : bufOk buf = true) :
    hasCustomDataField buf field = .ok (hasFieldB buf field) := by
  unfold bufOk at h
  unfold hasFieldB hasCustomDataField
  rcases Bool.or_eq_true_iff.mp h with h0 | hok
  · have h0 : buf.length = 0 := of_decide_eq_true h0
    simp [h0]
  · by_cases hl : buf.length ≤ 0
    · simp [hl]
    · simp only [if_neg hl]
      cases hres : (parseCustomData buf).1 with
      | ok data => rfl
      | formatError => rw [hres] at hok; simp at hok
      | noFuel => rw [hres] at hok; simp at hok

/-- The search loop returns exactly the first object, in pop (queue) order,
whose buffer carries the field — or `notFound` when none does — provided
every buffer in the queue decodes cleanly and the fuel is sufficient. -/
theorem searchLoop_eq_find :
    ∀ (n fuel : Nat) (q : List ObjTree) (field : Nat), sizes q ≤ n →
      sizes q + 1 ≤ fuel → q.all treeOk = true →
      searchLoop field fuel q =
        (match (bfsLoop fuel q).find? (fun u => hasFieldB u.buf field) with
         | some u => SearchResult.found u.id
         | none => SearchResult.notFound) := by
  intro n
  induction n with
  | zero =>
    intro fuel q field hq hf hok
    cases q with
    | nil =>
      obtain ⟨c, rfl⟩ : ∃ c, fuel = c + 1 := ⟨fuel - 1, by omega⟩
      rfl
    | cons t rest =>
      have hpos := size_pos t
      rw [sizes_cons] at hq
      omega
  | succ n ih =>
    intro fuel q field hq hf hok
    cases q with
    | nil =>
      obtain ⟨c, rfl⟩ : ∃ c, fuel = c + 1 := ⟨fuel - 1, by omega⟩
      rfl
    | cons t rest =>
      have hpos := size_pos t
      have hA := sizes_flatMap_children rest
      have hftl := sizes_forestToList t.children
      have hD := size_eq_children t
      rw [List.all_cons, Bool.and_eq_true] at hok
      obtain ⟨hokt, hokr⟩ := hok
      rw [treeOk_eq, Bool.and_eq_true] at hokt
      obtain ⟨hbuf, hfor⟩ := hokt
      rw [sizes_cons] at hq hf
      obtain ⟨c, rfl⟩ : ∃ c, fuel = c + 1 := ⟨fuel - 1, by omega⟩
      simp only [searchLoop, bfsLoop]
      rw [hasCustomDataField_of_bufOk t.buf field hbuf]
      cases hb : hasFieldB t.buf field with
      | true =>
        simp only [List.find?, hb]
      | false =>
        simp only [List.find?, hb]
        exact ih c (rest ++ forestToList t.children) field
          (by simp only [sizes_append]; omega)
          (by simp only [sizes_append]; omega)
          (by rw [List.all_append, Bool.and_eq_true, forestOk_toList]
              exact ⟨hokr, hfor⟩)

/-- Claim C4: for every finite object tree whose buffers all decode, the
role search visits objects in breadth-first order starting at the root
(root first, children in the host enumeration order, left to right), and
returns the first visited object carrying the field, or the not-found
sentinel (-1 in the source) when no object in the subtree carries it. -/
theorem searchCustomDataField_bfsOrder (t : ObjTree) (field : Nat)
    (h : treeOk t = true) :
    searchCustomDataField t field =
      (match (levelOrder t).find? (fun u => hasFieldB u.buf field) with
       | some u => SearchResult.found u.id
       | none => SearchResult.notFound) := by
  unfold searchCustomDataField levelOrder
  rw [searchLoop_eq_find (sizes [t]) (ObjTree.size t + 1) [t] field le_rfl
    (by rw [sizes_cons]; simp [sizes])
    (by rw [List.all_cons]; simp [h])]
  rw [bfsLoop_eq_levelOrder (sizes [t]) [t] (ObjTree.size t + 1) (ObjTree.size t + 1)
    le_rfl (by rw [sizes_cons]; simp [sizes]) (by rw [sizes_cons]; simp [sizes])]

/-- Claim C4 witness: a two-level tree where a deeper-left object (4) and a
shallower-right object (3) both carry field 7; breadth-first order finds 3,
not the depth-first answer 4. -/
theorem searchCustomDataField_bfsOrder_witness :
    treeOk (ObjTree.node 1 []
      (ObjForest.cons (ObjTree.node 2 []
          (ObjForest.cons (ObjTree.node 4 [7, 0, 0, 0, 0, 0, 0, 0] ObjForest.nil)
            ObjForest.nil))
        (ObjForest.cons (ObjTree.node 3 [7, 0, 0, 0, 0, 0, 0, 0] ObjForest.nil)
          ObjForest.nil))) = true ∧
    searchCustomDataField (ObjTree.node 1 []
      (ObjForest.cons (ObjTree.node 2 []
          (ObjForest.cons (ObjTree.node 4 [7, 0, 0, 0, 0, 0, 0, 0] ObjForest.nil)
            ObjForest.nil))
        (ObjForest.cons (ObjTree.node 3 [7, 0, 0, 0, 0, 0, 0, 0] ObjForest.nil)
          ObjForest.nil))) 7 =
      (match (levelOrder (ObjTree.node 1 []
          (ObjForest.cons (ObjTree.node 2 []
              (ObjForest.cons (ObjTree.node 4 [7, 0, 0, 0, 0, 0, 0, 0] ObjForest.nil)
                ObjForest.nil))
            (ObjForest.cons (ObjTree.node 3 [7, 0, 0, 0, 0, 0, 0, 0] ObjForest.nil)
              ObjForest.nil)))).find? (fun u => hasFieldB u.buf 7) with
       | some u => SearchResult.found u.id
       | none => SearchResult.notFound) ∧
    searchCustomDataField (ObjTree.node 1 []
      (ObjForest.cons (ObjTree.node 2 []
          (ObjForest.cons (ObjTree.node 4 [7, 0, 0, 0, 0, 0, 0, 0] ObjForest.nil)
            ObjForest.nil))
        (ObjForest.cons (ObjTree.node 3 [7, 0, 0, 0, 0, 0, 0, 0] ObjForest.nil)
          ObjForest.nil))) 7 = SearchResult.found 3 :=
  ⟨by decide, searchCustomDataField_bfsOrder _ 7 (by decide), by decide⟩

/-- Claim C10: the breadth-first search terminates; each object enters the
queue once (per its unique parent edge, or as the root), so `size t + 1`
loop iterations always suffice and the fuel marker never appears. -/
theorem searchCustomDataField_terminates (t : ObjTree) (field : Nat) :
    (searchCustomDataField t field).isFuelOut = false := by
  unfold searchCustomDataField
  have main :
      ∀ (n fuel : Nat) (q : List ObjTree), sizes q ≤ n → sizes q + 1 ≤ fuel →
        (searchLoop field fuel q).isFuelOut = false := by
    intro n
    induction n with
    | zero =>
      intro fuel q hq hf
      cases q with
      | nil =>
        obtain ⟨c, rfl⟩ : ∃ c, fuel = c + 1 := ⟨fuel - 1, by omega⟩
        rfl
      | cons t rest =>
        have hpos := size_pos t
        rw [sizes_cons] at hq
        omega
    | succ n ih =>
      intro fuel q hq hf
      cases q with
      | nil =>
        obtain ⟨c, rfl⟩ : ∃ c, fuel = c + 1 := ⟨fuel - 1, by omega⟩
        rfl
      | cons u rest =>
        have hpos := size_pos u
        have hftl := sizes_forestToList u.children
        have hD := size_eq_children u
        rw [sizes_cons] at hq hf
        obtain ⟨c, rfl⟩ : ∃ c, fuel = c + 1 := ⟨fuel - 1, by omega⟩
        simp only [searchLoop]
        cases hres : hasCustomDataField u.buf field with
        | error e => rfl
        | ok b =>
          cases b with
          | true => rfl
          | false =>
            exact ih c (rest ++ forestToList u.children)
              (by simp only [sizes_append]; omega)
              (by simp only [sizes_append]; omega)
  exact main (sizes [t]) (ObjTree.size t + 1) [t] le_rfl (by rw [sizes_cons]; simp [sizes])

/-! ### Theorems: flight controller -/

/-- Full characterization of a tick on which every host read succeeds:
state and motor commands, with the expressions as written in the source. -/
theorem pidControl_ok_eq (env : Env) (ids : QuadIds) (s : CState)
    (tp bp v sp : ℚ × ℚ × ℚ) (m : List ℚ) (vx vy eu : ℚ × ℚ × ℚ)
    (h1 : env.position ids.m_target (-1) = some tp)
    (h2 : env.position ids.m_body (-1) = some bp)
    (h3 : env.velocity ids.m_obj = some v)
    (h4 : env.position ids.m_target ids.m_body = some sp)
    (h5 : env.objectMatrix ids.m_body (-1) = some m)
    (h6 : env.transformVector m (1, 0, 0) = some vx)
    (h7 : env.transformVector m (0, 1, 0) = some vy)
    (h8 : env.orientation ids.m_body ids.m_target = some eu) :
    pidControl env ids s =
      { state :=
          { m_last_save_time := s.m_last_save_time,
            m_cumul := s.m_cumul + (tp.2.2 - bp.2.2),
            m_lastE := tp.2.2 - bp.2.2,
            m_pAlphaE := vy.2.2 - m.getD 11 0,
            m_pBetaE := vx.2.2 - m.getD 11 0,
            m_psp0 := sp.1,
            m_psp1 := sp.2.1,
            m_prevEuler := eu.2.2 },
        motors := some
          ((5.335 + pParam * (tp.2.2 - bp.2.2) +
              iParam * (s.m_cumul + (tp.2.2 - bp.2.2)) +
              dParam * ((tp.2.2 - bp.2.2) - s.m_lastE) + v.2.2 * vParam) *
            (1.0 - (0.25 * (vy.2.2 - m.getD 11 0) +
                2.1 * ((vy.2.2 - m.getD 11 0) - s.m_pAlphaE) +
                sp.2.1 * 0.005 + 1.0 * (sp.2.1 - s.m_psp1)) +
              (-0.25 * (vx.2.2 - m.getD 11 0) -
                2.1 * ((vx.2.2 - m.getD 11 0) - s.m_pBetaE) -
                sp.1 * 0.005 - 1.0 * (sp.1 - s.m_psp0)) +
              (eu.2.2 * 0.1 + 2.0 * (eu.2.2 - s.m_prevEuler))),
           (5.335 + pParam * (tp.2.2 - bp.2.2) +
              iParam * (s.m_cumul + (tp.2.2 - bp.2.2)) +
              dParam * ((tp.2.2 - bp.2.2) - s.m_lastE) + v.2.2 * vParam) *
            (1.0 - (0.25 * (vy.2.2 - m.getD 11 0) +
                2.1 * ((vy.2.2 - m.getD 11 0) - s.m_pAlphaE) +
                sp.2.1 * 0.005 + 1.0 * (sp.2.1 - s.m_psp1)) -
              (-0.25 * (vx.2.2 - m.getD 11 0) -
                2.1 * ((vx.2.2 - m.getD 11 0) - s.m_pBetaE) -
                sp.1 * 0.005 - 1.0 * (sp.1 - s.m_psp0)) -
              (eu.2.2 * 0.1 + 2.0 * (eu.2.2 - s.m_prevEuler))),
           (5.335 + pParam * (tp.2.2 - bp.2.2) +
              iParam * (s.m_cumul + (tp.2.2 - bp.2.2)) +
              dParam * ((tp.2.2 - bp.2.2) - s.m_lastE) + v.2.2 * vParam) *
            (1.0 + (0.25 * (vy.2.2 - m.getD 11 0) +
                2.1 * ((vy.2.2 - m.getD 11 0) - s.m_pAlphaE) +
                sp.2.1 * 0.005 + 1.0 * (sp.2.1 - s.m_psp1)) -
              (-0.25 * (vx.2.2 - m.getD 11 0) -
                2.1 * ((vx.2.2 - m.getD 11 0) - s.m_pBetaE) -
                sp.1 * 0.005 - 1.0 * (sp.1 - s.m_psp0)) +
              (eu.2.2 * 0.1 + 2.0 * (eu.2.2 - s.m_prevEuler))),
           (5.335 + pParam * (tp.2.2 - bp.2.2) +
              iParam * (s.m_cumul + (tp.2.2 - bp.2.2)) +
              dParam * ((tp.2.2 - bp.2.2) - s.m_lastE) + v.2.2 * vParam) *
            (1.0 + (0.25 * (vy.2.2 - m.getD 11 0) +
                2.1 * ((vy.2.2 - m.getD 11 0) - s.m_pAlphaE) +
                sp.2.1 * 0.005 + 1.0 * (sp.2.1 - s.m_psp1)) +
              (-0.25 * (vx.2.2 - m.getD 11 0) -
                2.1 * ((vx.2.2 - m.getD 11 0) - s.m_pBetaE) -
                sp.1 * 0.005 - 1.0 * (sp.1 - s.m_psp0)) -
              (eu.2.2 * 0.1 + 2.0 * (eu.2.2 - s.m_prevEuler)))) } := by
  simp only [pidControl, h1, h2, h3, h4, h5, h6, h7, h8]

/-- Claim C1 counterexample: `pidControl` reads the velocity of the PLUGIN
OBJECT `m_obj` (`simGetObjectVelocity(m_obj, ...)`, Quadcopter.cpp:298),
not of the body object.  In `envC1` the body (handle 20) is at rest while
the plugin object (handle 10) climbs at 1: the claim formula computed with
the body vertical velocity (0) yields thrust 6.335, but the code outputs
motor commands 4.335 = 5.335 + 1·(2−1) − 2·1, using the plugin object
velocity. -/
theorem pidControl_velocityIsObjNotBody :
    envC1.velocity cexIds.m_body = some (0, 0, 0) ∧
    (pidControl envC1 cexIds zeroCState).motors = some (4.335, 4.335, 4.335, 4.335) ∧
    5.335 + 1.0 * ((2 : ℚ) - 1) + 0.0 * (0 + (2 - 1)) + 0.0 * ((2 - 1) - 0) +
      (-2.0) * 0 = (6.335 : ℚ) ∧
    (4.335 : ℚ) ≠ 6.335 := by
  refine ⟨rfl, ?_, by norm_num, by norm_num⟩
  rw [pidControl_ok_eq envC1 cexIds zeroCState (0, 0, 2) (0, 0, 1) (0, 0, 1)
    (0, 0, 0) zeroMat (0, 0, 0) (0, 0, 0) (0, 0, 0)
    rfl rfl rfl rfl rfl rfl rfl rfl]
  norm_num [pParam, iParam, dParam, vParam, zeroCState, zeroMat]

/-- Claim C1 (amended): on a fully successful tick, the vertical axis sets
`error = targetZ − bodyZ` (world frame), accumulates `m_cumul += error`,
stores `error` as the new `m_lastE`, and the motor commands are built from
`thrust = 5.335 + 1.0·error + 0.0·integral + 0.0·(error − prevError) +
(−2.0)·vz` — where `vz` is the vertical velocity OF THE PLUGIN OBJECT
`m_obj`, not of the body object as the claim stated
(`pidControl_velocityIsObjNotBody`). -/
theorem pidControl_verticalAxis (env : Env) (ids : QuadIds) (s : CState)
    (tp bp v sp : ℚ × ℚ × ℚ) (m : List ℚ) (vx vy eu : ℚ × ℚ × ℚ)
    (h1 : env.position ids.m_target (-1) = some tp)
    (h2 : env.position ids.m_body (-1) = some bp)
    (h3 : env.velocity ids.m_obj = some v)
    (h4 : env.position ids.m_target ids.m_body = some sp)
    (h5 : env.objectMatrix ids.m_body (-1) = some m)
    (h6 : env.transformVector m (1, 0, 0) = some vx)
    (h7 : env.transformVector m (0, 1, 0) = some vy)
    (h8 : env.orientation ids.m_body ids.m_target = some eu) :
    (pidControl env ids s).state.m_cumul = s.m_cumul + (tp.2.2 - bp.2.2) ∧
    (pidControl env ids s).state.m_lastE = tp.2.2 - bp.2.2 ∧
    ∃ a b r, (pidControl env ids s).motors = some
      (specThrust s (tp.2.2 - bp.2.2) v.2.2 * (1.0 - a + b + r),
       specThrust s (tp.2.2 - bp.2.2) v.2.2 * (1.0 - a - b - r),
       specThrust s (tp.2.2 - bp.2.2) v.2.2 * (1.0 + a - b + r),
       specThrust s (tp.2.2 - bp.2.2) v.2.2 * (1.0 + a + b - r)) := by
  rw [pidControl_ok_eq env ids s tp bp v sp m vx vy eu h1 h2 h3 h4 h5 h6 h7 h8]
  refine ⟨rfl, rfl,
    0.25 * (vy.2.2 - m.getD 11 0) + 2.1 * ((vy.2.2 - m.getD 11 0) - s.m_pAlphaE) +
      sp.2.1 * 0.005 + 1.0 * (sp.2.1 - s.m_psp1),
    -0.25 * (vx.2.2 - m.getD 11 0) - 2.1 * ((vx.2.2 - m.getD 11 0) - s.m_pBetaE) -
      sp.1 * 0.005 - 1.0 * (sp.1 - s.m_psp0),
    eu.2.2 * 0.1 + 2.0 * (eu.2.2 - s.m_prevEuler), ?_⟩
  simp only [Option.some.injEq, Prod.mk.injEq, specThrust, pParam, iParam, dParam, vParam]
  refine ⟨?_, ?_, ?_, ?_⟩ <;> ring

/-- Claim C1 witness: the amended theorem instantiated on `envC1` — the
integral accumulates 1, the previous error becomes 1, and the thrust
factor is 4.335 (object velocity 1, gain −2). -/
theorem pidControl_verticalAxis_witness :
    (pidControl envC1 cexIds zeroCState).state.m_cumul = 1 ∧
    (pidControl envC1 cexIds zeroCState).state.m_lastE = 1 ∧
    ∃ a b r, (pidControl envC1 cexIds zeroCState).motors = some
      (4.335 * (1.0 - a + b + r), 4.335 * (1.0 - a - b - r),
       4.335 * (1.0 + a - b + r), 4.335 * (1.0 + a + b - r)) := by
  obtain ⟨hc, hl, a, b, r, hm⟩ := pidControl_verticalAxis envC1 cexIds zeroCState
    (0, 0, 2) (0, 0, 1) (0, 0, 1) (0, 0, 0) zeroMat (0, 0, 0) (0, 0, 0) (0, 0, 0)
    rfl rfl rfl rfl rfl rfl rfl rfl
  refine ⟨?_, ?_, a, b, r, ?_⟩
  · rw [hc]; norm_num [zeroCState]
  · rw [hl]; norm_num
  · rw [hm]
    norm_num [specThrust, zeroCState]

/-- Claim C5: on a fully successful tick the four motor commands are the
quad-X mixing of the specification formulas — `thrust·(1 ∓ alphaCorr ±
betaCorr ± rotCorr)` with the corrections computed by the spec §4.4 laws
from the tick inputs and the previous-tick state. -/
theorem pidControl_motorMix (env : Env) (ids : QuadIds) (s : CState)
    (tp bp v sp : ℚ × ℚ × ℚ) (m : List ℚ) (vx vy eu : ℚ × ℚ × ℚ)
    (h1 : env.position ids.m_target (-1) = some tp)
    (h2 : env.position ids.m_body (-1) = some bp)
    (h3 : env.velocity ids.m_obj = some v)
    (h4 : env.position ids.m_target ids.m_body = some sp)
    (h5 : env.objectMatrix ids.m_body (-1) = some m)
    (h6 : env.transformVector m (1, 0, 0) = some vx)
    (h7 : env.transformVector m (0, 1, 0) = some vy)
    (h8 : env.orientation ids.m_body ids.m_target = some eu) :
    (pidControl env ids s).motors = some (specMotorMix
      (specThrust s (tp.2.2 - bp.2.2) v.2.2)
      (specAlphaCorr s (vy.2.2 - m.getD 11 0) sp.2.1)
      (specBetaCorr s (vx.2.2 - m.getD 11 0) sp.1)
      (specRotCorr s eu.2.2)) := by
  rw [pidControl_ok_eq env ids s tp bp v sp m vx vy eu h1 h2 h3 h4 h5 h6 h7 h8]
  simp only [Option.some.injEq, Prod.mk.injEq, specMotorMix, specThrust,
    specAlphaCorr, specBetaCorr, specRotCorr, pParam, iParam, dParam, vParam]
  refine ⟨?_, ?_, ?_, ?_⟩ <;> ring

/-- Claim C5 witness: the spec §8 hover scenario — target z = 2, body z = 1,
vertical velocity 0, zero horizontal and yaw corrections — produces thrust
6.335 and all four motor commands 6.335. -/
theorem pidControl_motorMix_witness :
    (pidControl envHover cexIds zeroCState).motors =
      some (6.335, 6.335, 6.335, 6.335) := by
  rw [pidControl_motorMix envHover cexIds zeroCState
    (0, 0, 2) (0, 0, 1) (0, 0, 0) (0, 0, 0) zeroMat (0, 0, 0) (0, 0, 0) (0, 0, 0)
    rfl rfl rfl rfl rfl rfl rfl rfl]
  norm_num [specMotorMix, specThrust, specAlphaCorr, specBetaCorr, specRotCorr,
    zeroCState, zeroMat]

/-- Claim C6: a failed host read aborts the remainder of the tick — no motor
command is issued (`motors = none`), and exactly the state fields computed
before the failing read have been written, so the next tick starts from a
consistent state.  (The `CHECK` wrapper also prints a diagnostic line via
`fprintf`; console output is outside this model.)  The six conjuncts follow
the read order of the source: the three vertical reads leave the state untouched;
the relative-position, matrix and the two vector-transform reads fail after
the vertical fields were written; the orientation read fails after the
horizontal fields were also written. -/
theorem pidControl_abortOnFailure (env : Env) (ids : QuadIds) (s : CState) :
    ((env.position ids.m_target (-1) = none ∨ env.position ids.m_body (-1) = none ∨
        env.velocity ids.m_obj = none) →
      pidControl env ids s = { state := s, motors := none }) ∧
    (∀ tp bp v, env.position ids.m_target (-1) = some tp →
      env.position ids.m_body (-1) = some bp → env.velocity ids.m_obj = some v →
      env.position ids.m_target ids.m_body = none →
      pidControl env ids s =
        { state :=
            { s with
              m_cumul := s.m_cumul + (tp.2.2 - bp.2.2),
              m_lastE := tp.2.2 - bp.2.2 },
          motors := none }) ∧
    (∀ tp bp v sp, env.position ids.m_target (-1) = some tp →
      env.position ids.m_body (-1) = some bp → env.velocity ids.m_obj = some v →
      env.position ids.m_target ids.m_body = some sp →
      env.objectMatrix ids.m_body (-1) = none →
      pidControl env ids s =
        { state :=
            { s with
              m_cumul := s.m_cumul + (tp.2.2 - bp.2.2),
              m_lastE := tp.2.2 - bp.2.2 },
          motors := none }) ∧
    (∀ tp bp v sp m, env.position ids.m_target (-1) = some tp →
      env.position ids.m_body (-1) = some bp → env.velocity ids.m_obj = some v →
      env.position ids.m_target ids.m_body = some sp →
      env.objectMatrix ids.m_body (-1) = some m →
      env.transformVector m (1, 0, 0) = none →
      pidControl env ids s =
        { state :=
            { s with
              m_cumul := s.m_cumul + (tp.2.2 - bp.2.2),
              m_lastE := tp.2.2 - bp.2.2 },
          motors := none }) ∧
    (∀ tp bp v sp m vx, env.position ids.m_target (-1) = some tp →
      env.position ids.m_body (-1) = some bp → env.velocity ids.m_obj = some v →
      env.position ids.m_target ids.m_body = some sp →
      env.objectMatrix ids.m_body (-1) = some m →
      env.transformVector m (1, 0, 0) = some vx →
      env.transformVector m (0, 1, 0) = none →
      pidControl env ids s =
        { state :=
            { s with
              m_cumul := s.m_cumul + (tp.2.2 - bp.2.2),
              m_lastE := tp.2.2 - bp.2.2 },
          motors := none }) ∧
    (∀ tp bp v sp m vx vy, env.position ids.m_target (-1) = some tp →
      env.position ids.m_body (-1) = some bp → env.velocity ids.m_obj = some v →
      env.position ids.m_target ids.m_body = some sp →
      env.objectMatrix ids.m_body (-1) = some m →
      env.transformVector m (1, 0, 0) = some vx →
      env.transformVector m (0, 1, 0) = some vy →
      env.orientation ids.m_body ids.m_target = none →
      pidControl env ids s =
        { state :=
            { s with
              m_cumul := s.m_cumul + (tp.2.2 - bp.2.2),
              m_lastE := tp.2.2 - bp.2.2,
              m_pAlphaE := vy.2.2 - m.getD 11 0,
              m_pBetaE := vx.2.2 - m.getD 11 0,
              m_psp0 := sp.1,
              m_psp1 := sp.2.1 },
          motors := none }) := by
  refine ⟨?_, ?_, ?_, ?_, ?_, ?_⟩
  · intro h
    rcases h with h | h | h
    · simp only [pidControl, h]
    · cases h1 : env.position ids.m_target (-1) with
      | none => simp only [pidControl, h1]
      | some tp => simp only [pidControl, h1, h]
    · cases h1 : env.position ids.m_target (-1) with
      | none => simp only [pidControl, h1]
      | some tp =>
        cases h2 : env.position ids.m_body (-1) with
        | none => simp only [pidControl, h1, h2]
        | some bp => simp only [pidControl, h1, h2, h]
  · intro tp bp v h1 h2 h3 h4
    simp only [pidControl, h1, h2, h3, h4]
  · intro tp bp v sp h1 h2 h3 h4 h5
    simp only [pidControl, h1, h2, h3, h4, h5]
  · intro tp bp v sp m h1 h2 h3 h4 h5 h6
    simp only [pidControl, h1, h2, h3, h4, h5, h6]
  · intro tp bp v sp m vx h1 h2 h3 h4 h5 h6 h7
    simp only [pidControl, h1, h2, h3, h4, h5, h6, h7]
  · intro tp bp v sp m vx vy h1 h2 h3 h4 h5 h6 h7 h8
    simp only [pidControl, h1, h2, h3, h4, h5, h6, h7, h8]

/-- Claim C6 witness: on a tick where every read fails, a nonzero prior
state passes through untouched and no motors are driven. -/
theorem pidControl_abortOnFailure_witness :
    pidControl envDown cexIds sPrior = { state := sPrior, motors := none } :=
  (pidControl_abortOnFailure envDown cexIds sPrior).1 (Or.inl rfl)

/-- Claim C7: the simulation-start transition zeroes every controller-state
field, whatever values the previous run left behind. -/
theorem simulationStarted_zeroesState (s : CState) :
    (simulationStarted s).m_cumul = 0 ∧ (simulationStarted s).m_lastE = 0 ∧
    (simulationStarted s).m_pAlphaE = 0 ∧ (simulationStarted s).m_pBetaE = 0 ∧
    (simulationStarted s).m_psp0 = 0 ∧ (simulationStarted s).m_psp1 = 0 ∧
    (simulationStarted s).m_prevEuler = 0 ∧
    (simulationStarted s).m_last_save_time = 0 :=
  ⟨rfl, rfl, rfl, rfl, rfl, rfl, rfl, rfl⟩

/-! ### Theorems: actuator interface -/

/-- Claim C8: the actuator-write delegation is a no-op for any index outside
0-3 — the bound check fires before any host call, so no actuator call is
made and nothing is modified. -/
theorem setMotorParticleVelocity_outOfRange (scriptOf : Int → Int)
    (motors : List Int) (n : Int) (v : ℚ) (h : n < 0 ∨ 3 < n) :
    setMotorParticleVelocity scriptOf motors n v = none := by
  unfold setMotorParticleVelocity
  rw [if_pos h]

/-- Claim C8 witness: indices -1 and 4 are no-ops even with motors and
scripts present. -/
theorem setMotorParticleVelocity_outOfRange_witness :
    setMotorParticleVelocity (fun _ => 77) [1, 2, 3, 4] (-1) 5 = none ∧
    setMotorParticleVelocity (fun _ => 77) [1, 2, 3, 4] 4 5 = none :=
  ⟨setMotorParticleVelocity_outOfRange _ _ _ _ (by decide),
   setMotorParticleVelocity_outOfRange _ _ _ _ (by decide)⟩

/-- Claim C9: the actuator read returns 0.0 without failing when the index
is out of range, when the motor has no associated script
(`simGetScriptAssociatedWithObject` = -1), or when the parameter read
returns NULL; `result` starts at 0.0 and is only overwritten on success. -/
theorem getMotorParticleVelocity_defaultZero (scriptOf : Int → Int)
    (paramOf : Int → Option ℚ) (motors : List Int) (n : Int)
    (h : (n < 0 ∨ 3 < n) ∨ scriptOf (motors.getD n.toNat 0) = -1 ∨
      paramOf (scriptOf (motors.getD n.toNat 0)) = none) :
    getMotorParticleVelocity scriptOf paramOf motors n = 0 := by
  unfold getMotorParticleVelocity
  rcases h with h | h | h
  · rw [if_pos h]
  · by_cases hn : n < 0 ∨ 3 < n
    · rw [if_pos hn]
    · rw [if_neg hn, if_pos h]
  · by_cases hn : n < 0 ∨ 3 < n
    · rw [if_pos hn]
    · rw [if_neg hn]
      by_cases hs : scriptOf (motors.getD n.toNat 0) = -1
      · rw [if_pos hs]
      · rw [if_neg hs, h]

/-- Claim C9 witness: index 4 is out of range; index 2 with script -1, and
index 2 with a NULL parameter read, all return 0. -/
theorem getMotorParticleVelocity_defaultZero_witness :
    getMotorParticleVelocity (fun _ => 55) (fun _ => some 3) [11, 12, 13, 14] 4 = 0 ∧
    getMotorParticleVelocity (fun _ => -1) (fun _ => some 3) [11, 12, 13, 14] 2 = 0 ∧
    getMotorParticleVelocity (fun _ => 55) (fun _ => none) [11, 12, 13, 14] 2 = 0 :=
  ⟨getMotorParticleVelocity_defaultZero _ _ _ _ (Or.inl (by decide)),
   getMotorParticleVelocity_defaultZero _ _ _ _ (Or.inr (Or.inl rfl)),
   getMotorParticleVelocity_defaultZero _ _ _ _ (Or.inr (Or.inr rfl))⟩
